import Mathlib

/-
Verification development for the Mattermost custom emoji extractor
(src/custom_emoji_extractor.py).

The script is embedded shallowly: every HTTP interaction and filesystem
interaction the script performs is resolved through a World oracle, and
every method returns its Python return value together with the ordered
trace of observable events (network requests, directory creation, file
writes, log lines).  Python exceptions raised by the requests library,
by response.json() or by open() are modelled as explicit outcome
constructors; an exception that the script does not catch surfaces as
the PyResult.exn terminal result.  The unbounded while-True pagination
loop is embedded with a fuel parameter and returns none when the fuel
runs out.  The fixed time.sleep delays are timing behaviour and are not
part of the event trace.  Directory creation (Path.mkdir with
exist_ok=True) is modelled as always succeeding; file opens are fallible
through the oracle, matching open() raising OSError.
-/

/-- An emoji record as returned by the listing endpoint.  The script only
reads the id and name fields (lines 185-186 of the source). -/
structure Emoji where
  id : String
  name : String
  deriving DecidableEq

/-- Result of parsing a response body as JSON: either the parsed value or
a raised parse exception with its message. -/
inductive JsonResult (α : Type) where
  | parsed (a : α)
  | parseFail (msg : String)
  deriving DecidableEq

/-- Content written to a file: raw image bytes, or the JSON metadata
document serialised from the emoji collection. -/
inductive FileData where
  | bytes (b : List Nat)
  | jsonMeta (es : List Emoji)
  deriving DecidableEq

/-- Structured stand-ins for the print statements of the script.  The
constructor arguments carry exactly the data interpolated into each
message. -/
inductive LogMsg where
  | connected (username : String)
  | connFailed (status : Nat) (text : String)
  | connError (msg : String)
  | fetchingEmojis
  | fetchFailed (status : Nat) (text : String)
  | fetchError (msg : String)
  | retrievedPage (count : Nat) (pageNum : Nat)
  | totalFound (count : Nat)
  | noData
  | savedMetadata (path : String)
  | downloadingTo (dir : String)
  | downloading (name : String) (idx : Nat) (total : Nat)
  | downloadFailed (name : String) (status : Nat)
  | downloadError (name : String) (msg : String)
  | markOk
  | markFail
  | summary (succ : Nat) (total : Nat)
  | filesSavedTo (dir : String)
  | banner
  | configInstructions
  deriving DecidableEq

/-- Observable events of a run, in program order. -/
inductive Event where
  | mkdir (dir : String)
  | connReq
  | listReq (page : Nat) (per_page : Nat)
  | imageReq (id : String)
  | writeFile (path : String) (data : FileData)
  | log (m : LogMsg)
  deriving DecidableEq

/-- Response of the identity endpoint GET /api/v4/users/me: status code,
body text, and the result of calling response.json() on it.  The parsed
JSON is abstracted to the optional username field, the only field the
script reads. -/
structure ConnHttp where
  status : Nat
  text : String
  jsonBody : JsonResult (Option String)
  deriving DecidableEq

/-- Outcome of the identity request: a response, or a transport-level
exception raised by session.get. -/
inductive ConnOutcome where
  | resp (r : ConnHttp)
  | exn (msg : String)
  deriving DecidableEq

/-- Response of the listing endpoint GET /api/v4/emoji: status, body
text, and the result of parsing the body as a JSON array of emoji
records. -/
structure ListHttp where
  status : Nat
  text : String
  jsonBody : JsonResult (List Emoji)
  deriving DecidableEq

/-- Outcome of one listing request: a response or a transport
exception. -/
inductive ListOutcome where
  | resp (r : ListHttp)
  | exn (msg : String)
  deriving DecidableEq

/-- Outcome of one image request GET /api/v4/emoji/id/image: status,
optional content-type header and body bytes, or a transport
exception. -/
inductive ImgOutcome where
  | resp (status : Nat) (contentType : Option String) (body : List Nat)
  | exn (msg : String)
  deriving DecidableEq

/-- The environment a run interacts with: the identity endpoint, the
listing endpoint indexed by page and per_page, the image endpoint
indexed by emoji id, and the filesystem (fsOpen path = none means
opening the path for writing succeeds, some msg means open raises
OSError with that message). -/
structure World where
  me : ConnOutcome
  listing : Nat → Nat → ListOutcome
  image : String → ImgOutcome
  fsOpen : String → Option String

/-- Whether the script treats PyResult as a normal return or as an
uncaught exception escaping the call. -/
inductive PyResult where
  | normal
  | exn
  deriving DecidableEq

/-- Embedding of MattermostEmojiExtractor.test_connection (lines 33-46).
Issues the identity request; on status 200 parses the body (the parse
may raise, landing in the same except handler as transport errors) and
returns True, otherwise logs the failure and returns False. -/
def test_connection (o : ConnOutcome) : Bool × List Event :=
  match o with
  | .exn m => (false, [.connReq, .log (.connError m)])
  | .resp r =>
    if r.status = 200 then
      match r.jsonBody with
      | .parsed u => (true, [.connReq, .log (.connected (u.getD "Unknown"))])
      | .parseFail m => (false, [.connReq, .log (.connError m)])
    else
      (false, [.connReq, .log (.connFailed r.status r.text)])

/-- Embedding of MattermostEmojiExtractor.get_custom_emojis (lines
48-79).  Issues one listing request; returns the parsed page on a 200
response and otherwise logs the cause and returns the empty list. -/
def get_custom_emojis (w : World) (page : Nat) (per_page : Nat) :
    List Emoji × List Event :=
  match w.listing page per_page with
  | .exn m => ([], [.listReq page per_page, .log (.fetchError m)])
  | .resp r =>
    if r.status = 200 then
      match r.jsonBody with
      | .parsed es => (es, [.listReq page per_page])
      | .parseFail m => ([], [.listReq page per_page, .log (.fetchError m)])
    else
      ([], [.listReq page per_page, .log (.fetchFailed r.status r.text)])

/-- Embedding of the while-True loop of get_all_custom_emojis (lines
89-102), with fuel.  Requests the current page; an empty page ends the
loop, otherwise the page is accumulated, a per-page message is logged,
and a page shorter than per_page ends the loop; otherwise the page index
advances.  none signals fuel exhaustion. -/
def pagesLoop (w : World) (per_page : Nat) :
    Nat → Nat → List Emoji → List Event → Option (List Emoji × List Event)
  | 0, _, _, _ => none
  | fuel + 1, page, acc, evs =>
    let pr := get_custom_emojis w page per_page
    let evs1 := evs ++ pr.2
    if pr.1.isEmpty then
      some (acc, evs1)
    else
      let acc1 := acc ++ pr.1
      let evs2 := evs1 ++ [.log (.retrievedPage pr.1.length (page + 1))]
      if pr.1.length < per_page then
        some (acc1, evs2)
      else
        pagesLoop w per_page fuel (page + 1) acc1 evs2

/-- Embedding of MattermostEmojiExtractor.get_all_custom_emojis (lines
81-105): runs the pagination loop from page 0 with per_page fixed at
200 and logs the final total. -/
def get_all_custom_emojis (w : World) (fuel : Nat) :
    Option (List Emoji × List Event) :=
  match pagesLoop w 200 fuel 0 [] [.log .fetchingEmojis] with
  | none => none
  | some (all, evs) => some (all, evs ++ [.log (.totalFound all.length)])

/-- Substring test on lists of characters, the semantics of the Python
expression needle in haystack. -/
def strContainsAux (needle : List Char) : List Char → Bool
  | [] => needle.isEmpty
  | c :: rest => needle.isPrefixOf (c :: rest) || strContainsAux needle rest

/-- Substring test on strings: strContains hay needle is the Python
expression needle in hay. -/
def strContains (hay : String) (needle : String) : Bool :=
  strContainsAux needle.toList hay.toList

/-- The extension-selection chain of download_emoji_image (lines
127-135): png before gif before jpeg or jpg, defaulting to png. -/
def extFromContentType (content_type : String) : String :=
  if strContains content_type "png" then ".png"
  else if strContains content_type "gif" then ".gif"
  else if strContains content_type "jpeg" || strContains content_type "jpg" then
    ".jpg"
  else ".png"

/-- Structural worker for iter_content: the fuel is an upper bound on
the list length, so the middle case is never reached when the fuel
starts at the length of the list. -/
def iter_content_go : Nat → List Nat → List (List Nat)
  | _, [] => []
  | 0, _ :: _ => []
  | f + 1, b :: rest =>
    (b :: rest).take 8192 :: iter_content_go f ((b :: rest).drop 8192)

/-- Embedding of response.iter_content with chunk_size 8192 (line 141):
the successive chunks of the body. -/
def iter_content (l : List Nat) : List (List Nat) :=
  iter_content_go l.length l

/-- The bytes the chunked write loop of lines 140-142 puts in the file:
each chunk appended in order. -/
def writeChunks (body : List Nat) : List Nat :=
  (iter_content body).foldl (fun acc c => acc ++ c) []

/-- Embedding of MattermostEmojiExtractor.download_emoji_image (lines
107-151).  Issues the image request; on a 200 response derives the
extension from the content-type header (absent header defaults to the
empty string), opens download_dir/name+ext for writing (an open failure
raises inside the try block and is caught, returning False) and writes
the chunked body; on any other status or a transport exception logs and
returns False. -/
def download_emoji_image (w : World) (emoji_id : String)
    (emoji_name : String) (download_dir : String) : Bool × List Event :=
  match w.image emoji_id with
  | .exn m => (false, [.imageReq emoji_id, .log (.downloadError emoji_name m)])
  | .resp status contentType body =>
    if status = 200 then
      let content_type := contentType.getD ""
      let ext := extFromContentType content_type
      let filename := emoji_name ++ ext
      let filepath := download_dir ++ "/" ++ filename
      match w.fsOpen filepath with
      | some m =>
        (false, [.imageReq emoji_id, .log (.downloadError emoji_name m)])
      | none =>
        (true, [.imageReq emoji_id,
                .writeFile filepath (.bytes (writeChunks body))])
    else
      (false, [.imageReq emoji_id, .log (.downloadFailed emoji_name status)])

/-- Embedding of the per-emoji download loop of extract_emojis (lines
184-197): enumerate from 1, log the progress line, download, log the
success or failure mark, and count successes. -/
def downloadLoop (w : World) (download_dir : String) (total : Nat) :
    List Emoji → Nat → Nat → List Event → Nat × List Event
  | [], _, succ, evs => (succ, evs)
  | e :: rest, i, succ, evs =>
    let dr := download_emoji_image w e.id e.name download_dir
    let evs1 := evs ++ [.log (.downloading e.name i total)] ++ dr.2 ++
      [.log (if dr.1 then .markOk else .markFail)]
    downloadLoop w download_dir total rest (i + 1)
      (if dr.1 then succ + 1 else succ) evs1

/-- Embedding of MattermostEmojiExtractor.extract_emojis (lines
153-200).  Creates the download directory, tests the connection
(returning on failure), lists all emojis (returning with a no-data
message on an empty collection), writes the metadata file - this open is
outside any try block, so an open failure is an uncaught exception
ending the run - then downloads every emoji and logs the summary. -/
def extract_emojis (w : World) (download_dir : String) (fuel : Nat) :
    Option (List Event × PyResult) :=
  let evs0 := [Event.mkdir download_dir]
  let conn := test_connection w.me
  let evs1 := evs0 ++ conn.2
  if !conn.1 then
    some (evs1, .normal)
  else
    match get_all_custom_emojis w fuel with
    | none => none
    | some (emojis, listEvs) =>
      let evs2 := evs1 ++ listEvs
      if emojis.isEmpty then
        some (evs2 ++ [.log .noData], .normal)
      else
        let metadata_file := download_dir ++ "/" ++ "emoji_metadata.json"
        match w.fsOpen metadata_file with
        | some _ => some (evs2, .exn)
        | none =>
          let evs3 := evs2 ++
            [.writeFile metadata_file (.jsonMeta emojis),
             .log (.savedMetadata metadata_file),
             .log (.downloadingTo download_dir)]
          let dl := downloadLoop w download_dir emojis.length emojis 1 0 evs3
          some (dl.2 ++ [.log (.summary dl.1 emojis.length),
                         .log (.filesSavedTo download_dir)], .normal)

/-- The placeholder server URL of the configuration block (line 209). -/
def defaultServerURL : String := "https://your-mattermost-server.com"

/-- The placeholder access token of the configuration block (line 210). -/
def defaultAccessToken : String := "your-access-token-here"

/-- Embedding of main (lines 203-228): print the banner, and if either
configuration constant still equals its placeholder, print the
instructions and return before constructing the extractor; otherwise run
the extraction. -/
def main_fn (mattermost_url : String) (access_token : String)
    (download_dir : String) (w : World) (fuel : Nat) :
    Option (List Event × PyResult) :=
  let evs0 := [Event.log .banner]
  if mattermost_url == defaultServerURL || access_token == defaultAccessToken then
    some (evs0 ++ [.log .configInstructions], .normal)
  else
    match extract_emojis w download_dir fuel with
    | none => none
    | some (evs, r) => some (evs0 ++ evs, r)

/-- Whether an event is a log line (console output). -/
def Event.isLog : Event → Bool
  | .log _ => true
  | _ => false

/-- Whether an event is a metadata or image file write. -/
def Event.isWriteFile : Event → Bool
  | .writeFile _ _ => true
  | _ => false

/-- Whether an event is an image download request. -/
def Event.isImageReq : Event → Bool
  | .imageReq _ => true
  | _ => false

/-- Whether an event is a listing page request. -/
def Event.isListReq : Event → Bool
  | .listReq _ _ => true
  | _ => false

/-- The events of a trace that are not console output: network requests
and filesystem changes. -/
def nonLogEvents (evs : List Event) : List Event :=
  evs.filter (fun e => !e.isLog)

/-- The page and per_page arguments of the listing requests in a trace,
in order. -/
def listReqs (evs : List Event) : List (Nat × Nat) :=
  evs.filterMap (fun e => match e with
    | .listReq p n => some (p, n)
    | _ => none)

/-- The emoji ids of the image requests in a trace, in order. -/
def imageReqs (evs : List Event) : List String :=
  evs.filterMap (fun e => match e with
    | .imageReq i => some i
    | _ => none)

/-- A listing endpoint backed by a fixed finite collection: page p of
size n is the n-element slice starting at index p times n. -/
def serverPages (coll : List Emoji) : Nat → Nat → ListOutcome :=
  fun page per_page =>
    .resp ⟨200, "", .parsed ((coll.drop (page * per_page)).take per_page)⟩

/-- A numbered emoji record used to build concrete test collections. -/
def mkEmoji (i : Nat) : Emoji :=
  Emoji.mk ("id" ++ Nat.repr i) ("emoji" ++ Nat.repr i)

example : strContains "image/gif" "gif" = true := by decide
example : extFromContentType "application/octet-stream" = ".png" := by decide
example : writeChunks [1, 2, 3] = [1, 2, 3] := by decide

lemma isEmpty_false {α : Type} {l : List α} (h : l ≠ []) : l.isEmpty = false := by
  cases l with
  | nil => exact absurd rfl h
  | cons a t => rfl

lemma ne_nil_of_length {α : Type} {l : List α} {n : Nat} (h : l.length = n)
    (hn : 0 < n) : l ≠ [] := by
  intro he
  subst he
  simp at h
  omega

/-- One-step unfolding of the pagination loop at positive fuel. -/
lemma pagesLoop_succ (w : World) (per_page : Nat) (fuel : Nat) (page : Nat)
    (acc : List Emoji) (evs : List Event) :
    pagesLoop w per_page (fuel + 1) page acc evs =
      (let pr := get_custom_emojis w page per_page
       let evs1 := evs ++ pr.2
       if pr.1.isEmpty then
         some (acc, evs1)
       else
         let acc1 := acc ++ pr.1
         let evs2 := evs1 ++ [.log (.retrievedPage pr.1.length (page + 1))]
         if pr.1.length < per_page then
           some (acc1, evs2)
         else
           pagesLoop w per_page fuel (page + 1) acc1 evs2) := rfl

/-- Claim C1: against a server whose listing yields pages of sizes 200,
200 and 73 at page indices 0, 1 and 2 with per_page 200, List all
returns exactly the 473 records that are the concatenation of the three
pages in order, and issues exactly three page requests, with page
indices 0, 1, 2 and per_page 200 on each. -/
theorem c1_list_all_pagination (w : World) (fuel : Nat)
    (p0 p1 p2 : List Emoji) (t0 t1 t2 : String)
    (h0 : w.listing 0 200 = .resp ⟨200, t0, .parsed p0⟩)
    (h1 : w.listing 1 200 = .resp ⟨200, t1, .parsed p1⟩)
    (h2 : w.listing 2 200 = .resp ⟨200, t2, .parsed p2⟩)
    (l0 : p0.length = 200) (l1 : p1.length = 200) (l2 : p2.length = 73)
    (hf : 3 ≤ fuel) :
    ∃ evs, get_all_custom_emojis w fuel = some (p0 ++ (p1 ++ p2), evs) ∧
      (p0 ++ (p1 ++ p2)).length = 473 ∧
      listReqs evs = [(0, 200), (1, 200), (2, 200)] := by
  obtain ⟨k, rfl⟩ : ∃ k, fuel = k + 1 + 1 + 1 := ⟨fuel - 3, by omega⟩
  have g0 : get_custom_emojis w 0 200 = (p0, [.listReq 0 200]) := by
    simp [get_custom_emojis, h0]
  have g1 : get_custom_emojis w 1 200 = (p1, [.listReq 1 200]) := by
    simp [get_custom_emojis, h1]
  have g2 : get_custom_emojis w 2 200 = (p2, [.listReq 2 200]) := by
    simp [get_custom_emojis, h2]
  have ne0 : p0.isEmpty = false := isEmpty_false (ne_nil_of_length l0 (by omega))
  have ne1 : p1.isEmpty = false := isEmpty_false (ne_nil_of_length l1 (by omega))
  have ne2 : p2.isEmpty = false := isEmpty_false (ne_nil_of_length l2 (by omega))
  have hmain : get_all_custom_emojis w (k + 1 + 1 + 1) =
      some (p0 ++ (p1 ++ p2),
        [.log .fetchingEmojis, .listReq 0 200, .log (.retrievedPage 200 1),
         .listReq 1 200, .log (.retrievedPage 200 2),
         .listReq 2 200, .log (.retrievedPage 73 3),
         .log (.totalFound 473)]) := by
    simp [get_all_custom_emojis, pagesLoop_succ, g0, g1, g2, ne0, ne1, ne2,
      l0, l1, l2]
  exact ⟨_, hmain, by simp [l0, l1, l2], by decide⟩

/-- Witness pages for the C1 scenario: 200, 200 and 73 records. -/
def c1page0 : List Emoji := (List.range 200).map mkEmoji

/-- Second witness page for the C1 scenario. -/
def c1page1 : List Emoji := ((List.range 200).map (fun i => i + 200)).map mkEmoji

/-- Third witness page for the C1 scenario. -/
def c1page2 : List Emoji := ((List.range 73).map (fun i => i + 400)).map mkEmoji

/-- A concrete server serving the three C1 pages. -/
def c1world : World :=
  World.mk (.resp ⟨200, "", .parsed (some "admin")⟩)
    (fun page _ =>
      if page = 0 then .resp ⟨200, "", .parsed c1page0⟩
      else if page = 1 then .resp ⟨200, "", .parsed c1page1⟩
      else if page = 2 then .resp ⟨200, "", .parsed c1page2⟩
      else .resp ⟨200, "", .parsed []⟩)
    (fun _ => .exn "unused")
    (fun _ => none)

/-- Witness for claim C1 at the concrete three-page server. -/
theorem c1_witness :
    ∃ evs, get_all_custom_emojis c1world 3 =
        some (c1page0 ++ (c1page1 ++ c1page2), evs) ∧
      (c1page0 ++ (c1page1 ++ c1page2)).length = 473 ∧
      listReqs evs = [(0, 200), (1, 200), (2, 200)] :=
  c1_list_all_pagination c1world 3 c1page0 c1page1 c1page2 "" "" ""
    rfl rfl rfl (by simp [c1page0])
    (by simp [c1page1]) (by simp [c1page2]) (by omega)

/-- The listing requests recorded by a single page fetch are exactly the
one request it issues. -/
lemma get_custom_emojis_listReqs (w : World) (page : Nat) (per_page : Nat) :
    listReqs (get_custom_emojis w page per_page).2 = [(page, per_page)] := by
  rcases h : w.listing page per_page with r | m
  · simp only [get_custom_emojis, h]
    rcases r with ⟨st, tx, jb⟩
    by_cases hs : st = 200
    · rcases jb with es | m <;> simp [hs, listReqs]
    · simp [hs, listReqs]
  · simp [get_custom_emojis, h, listReqs]

/-- Running the pagination loop against a server backed by a finite
collection: with fuel at least remaining-length / 200 + 1, the loop
returns the whole remaining suffix appended to the accumulator, and
issues exactly remaining-length / 200 + 1 further page requests. -/
lemma pagesLoop_collection (coll : List Emoji) (w : World)
    (hw : ∀ page, w.listing page 200 = serverPages coll page 200) :
    ∀ fuel page acc evs,
      (coll.length - page * 200) / 200 + 1 ≤ fuel →
      ∃ evs2, pagesLoop w 200 fuel page acc evs =
          some (acc ++ coll.drop (page * 200), evs ++ evs2) ∧
        (listReqs evs2).length = (coll.length - page * 200) / 200 + 1 := by
  intro fuel
  induction fuel with
  | zero => intro page acc evs h; omega
  | succ f ih =>
    intro page acc evs h
    have hg : get_custom_emojis w page 200 =
        ((coll.drop (page * 200)).take 200, [.listReq page 200]) := by
      simp [get_custom_emojis, hw page, serverPages]
    have hlen : (coll.drop (page * 200)).length = coll.length - page * 200 := by
      simp
    by_cases hr0 : (coll.drop (page * 200)).length = 0
    · have hnil : coll.drop (page * 200) = [] :=
        List.eq_nil_of_length_eq_zero hr0
      refine ⟨[.listReq page 200], ?_, ?_⟩
      · rw [pagesLoop_succ, hg]
        simp [hnil]
      · rw [hlen] at hr0
        simp [listReqs, hr0]
    · by_cases hrlt : (coll.drop (page * 200)).length < 200
      · have htake : (coll.drop (page * 200)).take 200 = coll.drop (page * 200) :=
          List.take_of_length_le (by omega)
        have hne : (coll.drop (page * 200)).isEmpty = false :=
          isEmpty_false (fun he => hr0 (by rw [he]; rfl))
        refine ⟨[.listReq page 200,
          .log (.retrievedPage (coll.drop (page * 200)).length (page + 1))],
          ?_, ?_⟩
        · rw [pagesLoop_succ, hg]
          simp only [htake, hne, Bool.false_eq_true, if_false]
          rw [if_pos hrlt]
          simp
        · have : coll.length - page * 200 < 200 := by omega
          simp [listReqs, Nat.div_eq_of_lt this]
      · have h200 : 200 ≤ (coll.drop (page * 200)).length := by omega
        have htake : ((coll.drop (page * 200)).take 200).length = 200 := by
          simp
          omega
        have hne : ((coll.drop (page * 200)).take 200).isEmpty = false :=
          isEmpty_false (ne_nil_of_length htake (by omega))
        have hdivstep : (coll.length - page * 200) / 200 =
            (coll.length - (page + 1) * 200) / 200 + 1 := by
          have hsub : coll.length - (page + 1) * 200 =
              (coll.length - page * 200) - 200 := by
            have : (page + 1) * 200 = page * 200 + 200 := by ring
            omega
          rw [hsub]
          exact Nat.div_eq_sub_div (by omega) (by omega)
        have hfuel : (coll.length - (page + 1) * 200) / 200 + 1 ≤ f := by omega
        obtain ⟨evs2, heq, hcount⟩ := ih (page + 1)
          (acc ++ (coll.drop (page * 200)).take 200)
          (evs ++ [.listReq page 200] ++
            [.log (.retrievedPage 200 (page + 1))]) hfuel
        have hdrop : coll.drop ((page + 1) * 200) =
            (coll.drop (page * 200)).drop 200 := by
          rw [List.drop_drop]
          congr 1
          ring
        refine ⟨[.listReq page 200,
            .log (.retrievedPage 200 (page + 1))] ++ evs2, ?_, ?_⟩
        · rw [pagesLoop_succ, hg]
          simp only [htake, hne, Bool.false_eq_true, if_false]
          rw [if_neg (show ¬ (200:Nat) < 200 from by omega)]
          rw [heq, hdrop, List.append_assoc acc, List.take_append_drop]
          simp
        · have hsplit : listReqs ([Event.listReq page 200,
              Event.log (LogMsg.retrievedPage 200 (page + 1))] ++ evs2) =
              (page, 200) :: listReqs evs2 := by
            simp [listReqs]
          rw [hsplit]
          simp only [List.length_cons, hcount]
          omega

/-- Claim C2: first, against any server derived from a finite emoji
collection (pages are successive 200-element slices), List all
terminates within total / 200 + 1 iterations of the loop and the number
of page requests it issues is bounded by total / 200 + 1; second, for
every server whatsoever, a returned page of size strictly below 200 -
including the empty page - ends the loop at once: exactly one further
page request is issued regardless of what later pages would hold. -/
theorem c2_list_all_terminates :
    (∀ (coll : List Emoji) (w : World) (fuel : Nat),
        (∀ page per_page, w.listing page per_page = serverPages coll page per_page) →
        coll.length / 200 + 1 ≤ fuel →
        ∃ evs, get_all_custom_emojis w fuel = some (coll, evs) ∧
          (listReqs evs).length ≤ coll.length / 200 + 1) ∧
    (∀ (w : World) (fuel page : Nat) (acc : List Emoji) (evs : List Event),
        (get_custom_emojis w page 200).1.length < 200 →
        ∃ evs2, pagesLoop w 200 (fuel + 1) page acc evs =
            some (acc ++ (get_custom_emojis w page 200).1, evs ++ evs2) ∧
          listReqs evs2 = [(page, 200)]) := by
  constructor
  · intro coll w fuel hw h
    obtain ⟨evs2, heq, hcount⟩ := pagesLoop_collection coll w
      (fun page => hw page 200) fuel 0 [] [.log .fetchingEmojis]
      (by simpa using h)
    refine ⟨[.log .fetchingEmojis] ++ evs2 ++
      [.log (.totalFound coll.length)], ?_, ?_⟩
    · simp only [get_all_custom_emojis, heq]
      simp
    · have hsame : listReqs ([Event.log .fetchingEmojis] ++ evs2 ++
          [Event.log (.totalFound coll.length)]) = listReqs evs2 := by
        simp [listReqs]
      rw [hsame, hcount]
      simp
  · intro w fuel page acc evs hshort
    rw [pagesLoop_succ]
    by_cases hemp : (get_custom_emojis w page 200).1.isEmpty
    · have hnil : (get_custom_emojis w page 200).1 = [] :=
        List.isEmpty_iff.mp hemp
      refine ⟨(get_custom_emojis w page 200).2, ?_, ?_⟩
      · simp [hemp, hnil]
      · exact get_custom_emojis_listReqs w page 200
    · refine ⟨(get_custom_emojis w page 200).2 ++
        [.log (.retrievedPage (get_custom_emojis w page 200).1.length
          (page + 1))], ?_, ?_⟩
      · simp only [Bool.not_eq_true] at hemp
        simp [hemp, hshort]
      · have : listReqs ((get_custom_emojis w page 200).2 ++
            [Event.log (.retrievedPage (get_custom_emojis w page 200).1.length
              (page + 1))]) =
            listReqs (get_custom_emojis w page 200).2 := by
          simp [listReqs]
        rw [this]
        exact get_custom_emojis_listReqs w page 200

/-- A world whose listing endpoint serves the pages of a fixed
collection and whose other endpoints are unused. -/
def collWorld (coll : List Emoji) : World :=
  World.mk (.resp ⟨200, "", .parsed (some "admin")⟩) (serverPages coll)
    (fun _ => .exn "unused") (fun _ => none)

/-- The two-emoji collection used to witness claim C2. -/
def c2coll : List Emoji := [mkEmoji 0, mkEmoji 1]

/-- Witness for claim C2: the two-record collection is listed with one
request and fuel one suffices, and a concrete 2-element page (size below
200) ends the loop with exactly one request. -/
theorem c2_witness :
    (∃ evs, get_all_custom_emojis (collWorld c2coll) 1 = some (c2coll, evs) ∧
      (listReqs evs).length ≤ c2coll.length / 200 + 1) ∧
    (∃ evs2, pagesLoop (collWorld c2coll) 200 (0 + 1) 0 [] [] =
        some ([] ++ (get_custom_emojis (collWorld c2coll) 0 200).1, [] ++ evs2) ∧
      listReqs evs2 = [(0, 200)]) :=
  ⟨c2_list_all_terminates.1 c2coll (collWorld c2coll) 1 (fun _ _ => rfl)
      (by decide),
    c2_list_all_terminates.2 (collWorld c2coll) 0 0 [] [] (by decide)⟩

/-- A world whose identity endpoint answers 401 and whose other
endpoints are unused. -/
def c3world : World :=
  World.mk (.resp ⟨401, "Unauthorized", .parseFail "not json"⟩)
    (fun _ _ => .exn "unused") (fun _ => .exn "unused") (fun _ => none)

/-- Counterexample to claim C3 as stated: when the identity endpoint
answers 401, the non-console side effects of Extract are not just the
one failed identity request - the destination directory is created
before the connection test (line 161 precedes line 164 of the
source). -/
theorem c3_counterexample :
    (extract_emojis c3world "mattermost_emojis" 1).map
      (fun p => nonLogEvents p.1) ≠ some [Event.connReq] := by
  decide

/-- Claim C3 as amended: when the identity endpoint answers any non-200
status, Connect/verify returns false and Extract stops after the trace
mkdir, identity request, failure log - so no listing request, no
download request and no file write ever happen, and the only side
effects beyond the one failed identity request are the idempotent
creation of the destination directory. -/
theorem c3_amended (w : World) (download_dir : String) (fuel : Nat)
    (r : ConnHttp) (hme : w.me = .resp r) (hst : r.status ≠ 200) :
    (test_connection w.me).1 = false ∧
    extract_emojis w download_dir fuel =
      some ([.mkdir download_dir, .connReq,
        .log (.connFailed r.status r.text)], .normal) ∧
    nonLogEvents [Event.mkdir download_dir, Event.connReq,
        Event.log (LogMsg.connFailed r.status r.text)] =
      [Event.mkdir download_dir, Event.connReq] := by
  have hconn : test_connection w.me =
      (false, [.connReq, .log (.connFailed r.status r.text)]) := by
    simp [test_connection, hme, hst]
  refine ⟨by rw [hconn], ?_, by simp [nonLogEvents, Event.isLog]⟩
  simp [extract_emojis, hconn]

/-- Witness for the amended claim C3 at the concrete 401 world. -/
theorem c3_witness :
    (test_connection c3world.me).1 = false ∧
    extract_emojis c3world "mattermost_emojis" 1 =
      some ([.mkdir "mattermost_emojis", .connReq,
        .log (.connFailed 401 "Unauthorized")], .normal) ∧
    nonLogEvents [Event.mkdir "mattermost_emojis", Event.connReq,
        Event.log (LogMsg.connFailed 401 "Unauthorized")] =
      [Event.mkdir "mattermost_emojis", Event.connReq] :=
  c3_amended c3world "mattermost_emojis" 1
    ⟨401, "Unauthorized", .parseFail "not json"⟩ rfl (by decide)

/-- Folding the chunks produced by the worker appends exactly the
original bytes. -/
lemma iter_content_go_foldl :
    ∀ (f : Nat) (l : List Nat) (acc : List Nat), l.length ≤ f →
      (iter_content_go f l).foldl (fun a c => a ++ c) acc = acc ++ l := by
  intro f
  induction f with
  | zero =>
    intro l acc h
    cases l with
    | nil => simp [iter_content_go]
    | cons b rest => simp at h
  | succ g ih =>
    intro l acc h
    cases l with
    | nil => simp [iter_content_go]
    | cons b rest =>
      simp only [iter_content_go, List.foldl_cons]
      rw [ih ((b :: rest).drop 8192) (acc ++ (b :: rest).take 8192)
        (by simp at h ⊢; omega)]
      rw [List.append_assoc, List.take_append_drop]

/-- The chunked write loop of lines 140-142 writes exactly the response
body bytes. -/
lemma writeChunks_eq (body : List Nat) : writeChunks body = body := by
  have := iter_content_go_foldl body.length body [] (le_refl _)
  simpa [writeChunks, iter_content] using this

/-- A world serving one gif image under emoji id abc. -/
def c4world : World :=
  World.mk (.exn "unused") (fun _ _ => .exn "unused")
    (fun i =>
      if i = "abc" then .resp 200 (some "image/gif") [137, 80, 78, 71]
      else .exn "missing")
    (fun _ => none)

/-- Claim C4: on a 200 image response, Download image writes the file
download_dir/name+ext, where ext is derived from the content-type by
substring matching with png defaulting, and the file content is exactly
the response body; the named content types map to .png, .gif, .jpg,
.jpg and .png respectively, and the record named partyparrot with
content-type image/gif yields the file literally named
partyparrot.gif. -/
theorem c4_download_image (w : World) (emoji_id : String)
    (emoji_name : String) (download_dir : String) (ct : String)
    (body : List Nat)
    (himg : w.image emoji_id = .resp 200 (some ct) body)
    (hfs : w.fsOpen (download_dir ++ "/" ++
      (emoji_name ++ extFromContentType ct)) = none) :
    download_emoji_image w emoji_id emoji_name download_dir =
      (true, [.imageReq emoji_id,
        .writeFile (download_dir ++ "/" ++
          (emoji_name ++ extFromContentType ct)) (.bytes body)]) ∧
    extFromContentType "image/png" = ".png" ∧
    extFromContentType "image/gif" = ".gif" ∧
    extFromContentType "image/jpeg" = ".jpg" ∧
    extFromContentType "image/jpg" = ".jpg" ∧
    extFromContentType "application/octet-stream" = ".png" ∧
    download_emoji_image c4world "abc" "partyparrot" "mattermost_emojis" =
      (true, [.imageReq "abc",
        .writeFile "mattermost_emojis/partyparrot.gif"
          (.bytes [137, 80, 78, 71])]) := by
  refine ⟨?_, by decide, by decide, by decide, by decide, by decide, by decide⟩
  simp [download_emoji_image, himg, hfs, writeChunks_eq]

/-- Witness for claim C4 at the concrete gif world. -/
theorem c4_witness :
    download_emoji_image c4world "abc" "partyparrot" "mattermost_emojis" =
      (true, [.imageReq "abc",
        .writeFile ("mattermost_emojis" ++ "/" ++
          ("partyparrot" ++ extFromContentType "image/gif"))
          (.bytes [137, 80, 78, 71])]) :=
  (c4_download_image c4world "abc" "partyparrot" "mattermost_emojis"
    "image/gif" [137, 80, 78, 71] (by decide) rfl).1

/-- A world with a working connection, one short emoji page, and a
filesystem on which every file open raises. -/
def c5world : World :=
  World.mk (.resp ⟨200, "", .parsed (some "alice")⟩)
    (fun page _ =>
      if page = 0 then .resp ⟨200, "", .parsed [Emoji.mk "id1" "smile"]⟩
      else .resp ⟨200, "", .parsed []⟩)
    (fun _ => .resp 200 (some "image/png") [1])
    (fun _ => some "disk full")

/-- Counterexample to claim C5 as stated: not every step catches all of
its failures - the metadata file open of lines 175-177 sits outside any
try block, so a filesystem failure there escapes Extract as an uncaught
exception. -/
theorem c5_counterexample :
    (extract_emojis c5world "d" 2).map Prod.snd = some PyResult.exn := by
  decide

/-- Claim C5 as amended: every HTTP step catches its failures locally,
logs a message and returns a sentinel - a transport error on the
identity check yields false, a transport error on a page request yields
the empty list, a transport error on an image request yields false, and
even a file-open failure during an image write is caught inside
Download image and yields false; but the metadata file write of Extract
is not protected: when the metadata file open fails, the exception
propagates out of Extract. -/
theorem c5_error_handling :
    (∀ m, test_connection (.exn m) =
      (false, [.connReq, .log (.connError m)])) ∧
    (∀ (w : World) (page per_page : Nat) (m : String),
        w.listing page per_page = .exn m →
        get_custom_emojis w page per_page =
          ([], [.listReq page per_page, .log (.fetchError m)])) ∧
    (∀ (w : World) (id name dir m : String), w.image id = .exn m →
        download_emoji_image w id name dir =
          (false, [.imageReq id, .log (.downloadError name m)])) ∧
    (∀ (w : World) (id name dir m : String) (ct : Option String)
        (body : List Nat),
        w.image id = .resp 200 ct body →
        w.fsOpen (dir ++ "/" ++ (name ++ extFromContentType (ct.getD ""))) =
          some m →
        download_emoji_image w id name dir =
          (false, [.imageReq id, .log (.downloadError name m)])) ∧
    (∀ (w : World) (dir : String) (fuel : Nat) (emojis : List Emoji)
        (evs : List Event) (m : String),
        (test_connection w.me).1 = true →
        get_all_custom_emojis w fuel = some (emojis, evs) →
        emojis ≠ [] →
        w.fsOpen (dir ++ "/" ++ "emoji_metadata.json") = some m →
        ∃ tr, extract_emojis w dir fuel = some (tr, .exn)) := by
  refine ⟨fun m => rfl, ?_, ?_, ?_, ?_⟩
  · intro w page per_page m h
    simp [get_custom_emojis, h]
  · intro w id name dir m h
    simp [download_emoji_image, h]
  · intro w id name dir m ct body h hfs
    simp [download_emoji_image, h, hfs]
  · intro w dir fuel emojis evs m hc hall hne hfs
    have hemp : emojis.isEmpty = false := isEmpty_false hne
    refine ⟨[Event.mkdir dir] ++ (test_connection w.me).2 ++ evs, ?_⟩
    simp [extract_emojis, hc, hall, hemp, hfs]

/-- Witness for the amended claim C5: the transport-failure sentinel on
the identity check, and the uncaught metadata-open failure at the
concrete failing-filesystem world. -/
theorem c5_witness :
    test_connection (.exn "timeout") =
      (false, [.connReq, .log (.connError "timeout")]) ∧
    ∃ tr, extract_emojis c5world "d" 2 = some (tr, .exn) :=
  ⟨c5_error_handling.1 "timeout",
    c5_error_handling.2.2.2.2 c5world "d" 2 [Emoji.mk "id1" "smile"]
      [.log .fetchingEmojis, .listReq 0 200, .log (.retrievedPage 1 1),
       .log (.totalFound 1)]
      "disk full" (by decide) (by decide) (by decide) rfl⟩

/-- The events of the identity check are its one request plus log
lines. -/
lemma test_connection_events (o : ConnOutcome) :
    ∀ e ∈ (test_connection o).2, e = Event.connReq ∨ e.isLog = true := by
  rcases o with r | m
  · rcases r with ⟨st, tx, jb⟩
    by_cases hs : st = 200
    · rcases jb with u | m <;> simp [test_connection, hs, Event.isLog]
    · simp [test_connection, hs, Event.isLog]
  · simp [test_connection, Event.isLog]

/-- The events of one page fetch are its one listing request plus log
lines. -/
lemma get_custom_emojis_events (w : World) (page per_page : Nat) :
    ∀ e ∈ (get_custom_emojis w page per_page).2,
      e.isListReq = true ∨ e.isLog = true := by
  rcases h : w.listing page per_page with r | m
  · rcases r with ⟨st, tx, jb⟩
    by_cases hs : st = 200
    · rcases jb with es | m <;>
        simp [get_custom_emojis, h, hs, Event.isListReq, Event.isLog]
    · simp [get_custom_emojis, h, hs, Event.isListReq, Event.isLog]
  · simp [get_custom_emojis, h, Event.isListReq, Event.isLog]

/-- The pagination loop only ever appends listing requests and log
lines to its event accumulator. -/
lemma pagesLoop_events (w : World) :
    ∀ (fuel page : Nat) (acc : List Emoji) (evs : List Event)
      (res : List Emoji × List Event),
      pagesLoop w 200 fuel page acc evs = some res →
      ∃ tail, res.2 = evs ++ tail ∧
        ∀ e ∈ tail, e.isListReq = true ∨ e.isLog = true := by
  intro fuel
  induction fuel with
  | zero => intro page acc evs res h; simp [pagesLoop] at h
  | succ f ih =>
    intro page acc evs res h
    simp only [pagesLoop_succ] at h
    by_cases hemp : (get_custom_emojis w page 200).1.isEmpty = true
    · rw [if_pos hemp] at h
      obtain rfl : (acc, evs ++ (get_custom_emojis w page 200).2) = res :=
        Option.some.inj h
      exact ⟨(get_custom_emojis w page 200).2, rfl,
        get_custom_emojis_events w page 200⟩
    · rw [if_neg hemp] at h
      by_cases hlt : (get_custom_emojis w page 200).1.length < 200
      · rw [if_pos hlt] at h
        obtain rfl : (acc ++ (get_custom_emojis w page 200).1,
            evs ++ (get_custom_emojis w page 200).2 ++
              [.log (.retrievedPage (get_custom_emojis w page 200).1.length
                (page + 1))]) = res :=
          Option.some.inj h
        refine ⟨(get_custom_emojis w page 200).2 ++
          [.log (.retrievedPage (get_custom_emojis w page 200).1.length
            (page + 1))], by simp, ?_⟩
        intro e he
        rcases List.mem_append.mp he with he | he
        · exact get_custom_emojis_events w page 200 e he
        · simp only [List.mem_singleton] at he
          subst he
          exact Or.inr rfl
      · rw [if_neg hlt] at h
        obtain ⟨tail, htail, hpure⟩ := ih (page + 1)
          (acc ++ (get_custom_emojis w page 200).1)
          (evs ++ (get_custom_emojis w page 200).2 ++
            [.log (.retrievedPage (get_custom_emojis w page 200).1.length
              (page + 1))]) res h
        refine ⟨(get_custom_emojis w page 200).2 ++
          [.log (.retrievedPage (get_custom_emojis w page 200).1.length
            (page + 1))] ++ tail, by simp [htail], ?_⟩
        intro e he
        rcases List.mem_append.mp he with he | he
        · rcases List.mem_append.mp he with he | he
          · exact get_custom_emojis_events w page 200 e he
          · simp only [List.mem_singleton] at he
            subst he
            exact Or.inr rfl
        · exact hpure e he

/-- The events of a full List all run are listing requests and log
lines only. -/
lemma get_all_events (w : World) (fuel : Nat) (es : List Emoji)
    (evs : List Event)
    (h : get_all_custom_emojis w fuel = some (es, evs)) :
    ∀ e ∈ evs, e.isListReq = true ∨ e.isLog = true := by
  unfold get_all_custom_emojis at h
  rcases hp : pagesLoop w 200 fuel 0 [] [.log .fetchingEmojis] with _ | pr
  · rw [hp] at h
    simp at h
  · rw [hp] at h
    obtain ⟨all, evs0⟩ := pr
    simp only [Option.some.injEq, Prod.mk.injEq] at h
    obtain ⟨h1, h2⟩ := h
    obtain ⟨tail, htail, hpure⟩ := pagesLoop_events w fuel 0 [] _ _ hp
    intro e he
    rw [← h2] at he
    have htail2 : evs0 = [Event.log .fetchingEmojis] ++ tail := htail
    rw [htail2] at he
    rcases List.mem_append.mp he with he | he
    · rcases List.mem_append.mp he with he | he
      · simp only [List.mem_singleton] at he
        subst he
        exact Or.inr rfl
      · exact hpure e he
    · simp only [List.mem_singleton] at he
      subst he
      exact Or.inr rfl

/-- Image requests in a concatenation split. -/
lemma imageReqs_append (a b : List Event) :
    imageReqs (a ++ b) = imageReqs a ++ imageReqs b :=
  List.filterMap_append a b _

/-- A trace without image-request events has no image requests. -/
lemma imageReqs_nil (l : List Event)
    (h : ∀ e ∈ l, e.isImageReq = false) : imageReqs l = [] := by
  unfold imageReqs
  rw [List.filterMap_eq_nil_iff]
  intro e he
  have := h e he
  cases e <;> simp_all [Event.isImageReq]

/-- Listing requests and log lines are not image requests. -/
lemma isImageReq_false_of_listlog {e : Event}
    (h : e.isListReq = true ∨ e.isLog = true) : e.isImageReq = false := by
  cases e <;> simp_all [Event.isListReq, Event.isLog, Event.isImageReq]

/-- The identity request and log lines are not image requests. -/
lemma isImageReq_false_of_connlog {e : Event}
    (h : e = Event.connReq ∨ e.isLog = true) : e.isImageReq = false := by
  cases e <;> simp_all [Event.isLog, Event.isImageReq]

/-- One image download issues exactly one image request, for its own
emoji id. -/
lemma download_emoji_image_imageReqs (w : World) (id name dir : String) :
    imageReqs (download_emoji_image w id name dir).2 = [id] := by
  rcases h : w.image id with ⟨st, ct, body⟩ | m
  · by_cases hs : st = 200
    · rcases hf : w.fsOpen (dir ++ "/" ++
          (name ++ extFromContentType (ct.getD ""))) with _ | m2 <;>
        simp [download_emoji_image, h, hs, hf, imageReqs]
    · simp [download_emoji_image, h, hs, imageReqs]
  · simp [download_emoji_image, h, imageReqs]

/-- The download loop issues the image requests of the processed records
in order, appended to those already recorded. -/
lemma downloadLoop_imageReqs (w : World) (dir : String) (total : Nat) :
    ∀ (es : List Emoji) (i succ : Nat) (evs : List Event),
      imageReqs (downloadLoop w dir total es i succ evs).2 =
        imageReqs evs ++ es.map Emoji.id := by
  intro es
  induction es with
  | nil => intro i succ evs; simp [downloadLoop]
  | cons e rest ih =>
    intro i succ evs
    simp only [downloadLoop]
    rw [ih]
    rw [imageReqs_append, imageReqs_append, imageReqs_append,
      download_emoji_image_imageReqs]
    simp [imageReqs]

/-- The full success path of Extract: with a working connection, a
non-empty listed collection and a metadata open that succeeds, the run
finishes normally with the trace of the download loop followed by the
two summary lines. -/
lemma extract_success_path (w : World) (dir : String) (fuel : Nat)
    (emojis : List Emoji) (evs : List Event)
    (hc : (test_connection w.me).1 = true)
    (hall : get_all_custom_emojis w fuel = some (emojis, evs))
    (hne : emojis.isEmpty = false)
    (hfs : w.fsOpen (dir ++ "/" ++ "emoji_metadata.json") = none) :
    extract_emojis w dir fuel =
      some ((downloadLoop w dir emojis.length emojis 1 0
          ([Event.mkdir dir] ++ (test_connection w.me).2 ++ evs ++
           [Event.writeFile (dir ++ "/" ++ "emoji_metadata.json")
              (.jsonMeta emojis),
            Event.log (.savedMetadata (dir ++ "/" ++ "emoji_metadata.json")),
            Event.log (.downloadingTo dir)])).2 ++
        [Event.log (.summary (downloadLoop w dir emojis.length emojis 1 0
          ([Event.mkdir dir] ++ (test_connection w.me).2 ++ evs ++
           [Event.writeFile (dir ++ "/" ++ "emoji_metadata.json")
              (.jsonMeta emojis),
            Event.log (.savedMetadata (dir ++ "/" ++ "emoji_metadata.json")),
            Event.log (.downloadingTo dir)])).1 emojis.length),
         Event.log (.filesSavedTo dir)], .normal) := by
  simp [extract_emojis, hc, hall, hne, hfs]

/-- Claim C6: a page request that fails by transport error or by a
non-success status makes List page return the empty sequence after
logging the cause; the pagination loop then stops at that page with
exactly the records accumulated from the earlier pages and issues no
further page request; and a run whose listing produced a non-empty
(possibly truncated) collection proceeds to download exactly those
records. -/
theorem c6_listing_failure_truncates :
    (∀ (w : World) (page per_page : Nat) (m : String),
        w.listing page per_page = .exn m →
        get_custom_emojis w page per_page =
          ([], [.listReq page per_page, .log (.fetchError m)])) ∧
    (∀ (w : World) (page per_page : Nat) (r : ListHttp),
        w.listing page per_page = .resp r → r.status ≠ 200 →
        get_custom_emojis w page per_page =
          ([], [.listReq page per_page, .log (.fetchFailed r.status r.text)])) ∧
    (∀ (w : World) (fuel page : Nat) (acc : List Emoji) (evs : List Event),
        (get_custom_emojis w page 200).1 = [] →
        pagesLoop w 200 (fuel + 1) page acc evs =
          some (acc, evs ++ (get_custom_emojis w page 200).2)) ∧
    (∀ (w : World) (dir : String) (fuel : Nat) (emojis : List Emoji)
        (evs : List Event),
        (test_connection w.me).1 = true →
        get_all_custom_emojis w fuel = some (emojis, evs) →
        emojis ≠ [] →
        w.fsOpen (dir ++ "/" ++ "emoji_metadata.json") = none →
        ∃ tr, extract_emojis w dir fuel = some (tr, .normal) ∧
          imageReqs tr = emojis.map Emoji.id) := by
  refine ⟨?_, ?_, ?_, ?_⟩
  · intro w page per_page m h
    simp [get_custom_emojis, h]
  · intro w page per_page r h hst
    simp [get_custom_emojis, h, hst]
  · intro w fuel page acc evs h
    rw [pagesLoop_succ]
    simp [h]
  · intro w dir fuel emojis evs hc hall hne hfs
    have hemp : emojis.isEmpty = false := isEmpty_false hne
    have hrun := extract_success_path w dir fuel emojis evs hc hall hemp hfs
    refine ⟨_, hrun, ?_⟩
    rw [imageReqs_append, downloadLoop_imageReqs]
    have h3 : imageReqs ([Event.mkdir dir] ++ (test_connection w.me).2 ++
        evs ++
        [Event.writeFile (dir ++ "/" ++ "emoji_metadata.json")
           (.jsonMeta emojis),
         Event.log (.savedMetadata (dir ++ "/" ++ "emoji_metadata.json")),
         Event.log (.downloadingTo dir)]) = [] := by
      apply imageReqs_nil
      intro e he
      simp only [List.append_assoc, List.mem_append, List.mem_singleton,
        List.mem_cons, List.not_mem_nil, or_false] at he
      rcases he with he | he | he | he | he | he
      · subst he; rfl
      · exact isImageReq_false_of_connlog (test_connection_events w.me e he)
      · exact isImageReq_false_of_listlog (get_all_events w fuel emojis evs hall e he)
      · subst he; rfl
      · subst he; rfl
      · subst he; rfl
    rw [h3]
    simp [imageReqs]

/-- A world whose listing yields one short page of two records and then
fails, with working downloads. -/
def c6world : World :=
  World.mk (.resp ⟨200, "", .parsed (some "alice")⟩)
    (fun page _ =>
      if page = 0 then
        .resp ⟨200, "", .parsed [Emoji.mk "a" "x", Emoji.mk "b" "y"]⟩
      else .exn "boom")
    (fun _ => .resp 200 (some "image/png") [1])
    (fun _ => none)

/-- Witness for claim C6: a transport-failing page request returns the
sentinel, the loop at an error page keeps only the accumulated records,
and the run downloads exactly the two listed records. -/
theorem c6_witness :
    get_custom_emojis c6world 1 200 =
      ([], [.listReq 1 200, .log (.fetchError "boom")]) ∧
    pagesLoop c6world 200 (0 + 1) 1 [Emoji.mk "a" "x"] [] =
      some ([Emoji.mk "a" "x"],
        [] ++ (get_custom_emojis c6world 1 200).2) ∧
    (∃ tr, extract_emojis c6world "d" 1 = some (tr, .normal) ∧
      imageReqs tr = [Emoji.mk "a" "x", Emoji.mk "b" "y"].map Emoji.id) :=
  ⟨c6_listing_failure_truncates.1 c6world 1 200 "boom" rfl,
    c6_listing_failure_truncates.2.2.1 c6world 0 1 [Emoji.mk "a" "x"] []
      (by decide),
    c6_listing_failure_truncates.2.2.2 c6world "d" 1
      [Emoji.mk "a" "x", Emoji.mk "b" "y"]
      [.log .fetchingEmojis, .listReq 0 200, .log (.retrievedPage 2 1),
       .log (.totalFound 2)]
      (by decide) (by decide) (by decide) rfl⟩

/-- Listing requests and log lines are not file writes. -/
lemma isWriteFile_false_of_listlog {e : Event}
    (h : e.isListReq = true ∨ e.isLog = true) : e.isWriteFile = false := by
  cases e <;> simp_all [Event.isListReq, Event.isLog, Event.isWriteFile]

/-- The identity request and log lines are not file writes. -/
lemma isWriteFile_false_of_connlog {e : Event}
    (h : e = Event.connReq ∨ e.isLog = true) : e.isWriteFile = false := by
  cases e <;> simp_all [Event.isLog, Event.isWriteFile]

/-- Claim C7: when List all returns the empty collection, Extract
finishes normally, its last console line is the informational no-data
message, and the trace holds no file write (so no emoji_metadata.json is
created) and no image request. -/
theorem c7_empty_collection (w : World) (dir : String) (fuel : Nat)
    (evs : List Event)
    (hc : (test_connection w.me).1 = true)
    (hall : get_all_custom_emojis w fuel = some ([], evs)) :
    ∃ tr, extract_emojis w dir fuel = some (tr, .normal) ∧
      tr.getLast? = some (.log .noData) ∧
      ∀ e ∈ tr, e.isWriteFile = false ∧ e.isImageReq = false := by
  have hrun : extract_emojis w dir fuel =
      some ([Event.mkdir dir] ++ (test_connection w.me).2 ++ evs ++
        [Event.log .noData], .normal) := by
    simp [extract_emojis, hc, hall]
  refine ⟨_, hrun, List.getLast?_concat _, ?_⟩
  intro e he
  simp only [List.append_assoc, List.mem_append, List.mem_singleton] at he
  rcases he with he | he | he | he
  · subst he; exact ⟨rfl, rfl⟩
  · exact ⟨isWriteFile_false_of_connlog (test_connection_events w.me e he),
      isImageReq_false_of_connlog (test_connection_events w.me e he)⟩
  · exact ⟨isWriteFile_false_of_listlog (get_all_events w fuel [] evs hall e he),
      isImageReq_false_of_listlog (get_all_events w fuel [] evs hall e he)⟩
  · subst he; exact ⟨rfl, rfl⟩

/-- A world with a working connection whose listing is empty. -/
def c7world : World :=
  World.mk (.resp ⟨200, "", .parsed (some "alice")⟩)
    (fun _ _ => .resp ⟨200, "", .parsed []⟩)
    (fun _ => .exn "unused") (fun _ => none)

/-- Witness for claim C7 at the concrete empty-listing world. -/
theorem c7_witness :
    ∃ tr, extract_emojis c7world "d" 1 = some (tr, .normal) ∧
      tr.getLast? = some (.log .noData) ∧
      ∀ e ∈ tr, e.isWriteFile = false ∧ e.isImageReq = false :=
  c7_empty_collection c7world "d" 1
    [.log .fetchingEmojis, .listReq 0 200, .log (.totalFound 0)]
    (by decide) (by decide)

/-- Claim C8: with either configuration constant left at its
placeholder, the entry point stops right after the banner and the
instructional message: the trace holds nothing but those two console
lines, hence no network request and no filesystem write, and the
extraction is never started. -/
theorem c8_default_config (url : String) (token : String) (dir : String)
    (w : World) (fuel : Nat)
    (h : url = defaultServerURL ∨ token = defaultAccessToken) :
    main_fn url token dir w fuel =
      some ([.log .banner, .log .configInstructions], .normal) ∧
    nonLogEvents [Event.log .banner, Event.log .configInstructions] = [] := by
  constructor
  · have hcond : (url == defaultServerURL || token == defaultAccessToken) = true := by
      rcases h with h | h <;> simp [h]
    simp [main_fn, hcond]
  · rfl

/-- A world that is never consulted. -/
def idleWorld : World :=
  World.mk (.exn "unused") (fun _ _ => .exn "unused")
    (fun _ => .exn "unused") (fun _ => none)

/-- Witness for claim C8 with both constants at their placeholders. -/
theorem c8_witness :
    main_fn defaultServerURL defaultAccessToken "mattermost_emojis"
      idleWorld 1 =
      some ([.log .banner, .log .configInstructions], .normal) ∧
    nonLogEvents [Event.log .banner, Event.log .configInstructions] = [] :=
  c8_default_config defaultServerURL defaultAccessToken "mattermost_emojis"
    idleWorld 1 (Or.inl rfl)

/-- Claim C9: extension selection tests substrings in the fixed order
png, gif, jpeg or jpg - a content-type containing png yields .png no
matter what else it contains, gif wins whenever png is absent, and .jpg
is produced only when neither png nor gif occurs. -/
theorem c9_extension_priority (ct : String) :
    (strContains ct "png" = true → extFromContentType ct = ".png") ∧
    (strContains ct "png" = false → strContains ct "gif" = true →
      extFromContentType ct = ".gif") ∧
    (extFromContentType ct = ".jpg" →
      strContains ct "png" = false ∧ strContains ct "gif" = false) := by
  refine ⟨?_, ?_, ?_⟩
  · intro h
    simp [extFromContentType, h]
  · intro h1 h2
    simp [extFromContentType, h1, h2]
  · intro h
    by_cases hp : strContains ct "png" = true
    · simp only [extFromContentType, hp, if_true] at h
      exact absurd h (by decide)
    · have hp2 : strContains ct "png" = false := by
        simpa using hp
      by_cases hg : strContains ct "gif" = true
      · simp only [extFromContentType, hp2, Bool.false_eq_true, if_false,
          hg, if_true] at h
        exact absurd h (by decide)
      · exact ⟨hp2, by simpa using hg⟩

/-- Witness for claim C9: a content-type holding both png and gif gives
.png, one holding gif and jpg but not png gives .gif, and a .jpg result
implies neither png nor gif occurred. -/
theorem c9_witness :
    extFromContentType "pnggif" = ".png" ∧
    extFromContentType "gifjpg" = ".gif" ∧
    (strContains "xjpg" "png" = false ∧ strContains "xjpg" "gif" = false) :=
  ⟨(c9_extension_priority "pnggif").1 (by decide),
    (c9_extension_priority "gifjpg").2.1 (by decide) (by decide),
    (c9_extension_priority "xjpg").2.2 (by decide)⟩

/-- Claim C10: a 200 identity response whose body fails to parse as JSON
makes Connect/verify return false, through the same exception handler
and with the same message shape as a transport failure - a 200 status
alone does not make the connection test succeed. -/
theorem c10_parse_failure (r : ConnHttp) (m : String)
    (hst : r.status = 200) (hj : r.jsonBody = .parseFail m) :
    test_connection (.resp r) = (false, [.connReq, .log (.connError m)]) ∧
    test_connection (.exn m) = (false, [.connReq, .log (.connError m)]) := by
  constructor
  · simp [test_connection, hst, hj]
  · rfl

/-- Witness for claim C10 at a concrete unparseable 200 response. -/
theorem c10_witness :
    test_connection (.resp ⟨200, "ok", .parseFail "bad json"⟩) =
      (false, [.connReq, .log (.connError "bad json")]) ∧
    test_connection (.exn "bad json") =
      (false, [.connReq, .log (.connError "bad json")]) :=
  c10_parse_failure ⟨200, "ok", .parseFail "bad json"⟩ "bad json" rfl rfl
